import Mathlib

/-!
# Verification of the ffleague analytics layer

A shallow embedding, in Lean 4, of the derived-analytics code of the
ffleague repository (luck scoring, win/loss streak detection, team-legacy
aggregation, owner-name resolution, and year-bound validation in the read
API), together with theorems checking the frozen specification claims
against it.

Python `float` scores are modelled as exact rationals (`ℚ`); SQLite `NULL`
columns are modelled as `Option`; Python exceptions are modelled
explicitly with `Except`.
-/

/-! ## Luck calculator — `python_api/calculate_luck.py` -/

/-- `calculate_luck_for_matchup` (calculate_luck.py lines 23-38):
`luck = (actual - projected) - (opponent_actual - opponent_projected)`. -/
def calculate_luck_for_matchup (actual_score projected_score
    opponent_actual opponent_projected : ℚ) : ℚ :=
  let your_variance := actual_score - projected_score
  let opponent_variance := opponent_actual - opponent_projected
  let luck_score := your_variance - opponent_variance
  luck_score

/-- One owner entry of the `owners` JSON column, as read by the local
`get_owner_name` helper in `populate_luck_analysis` (lines 85-96):
either a dict with both `firstName` and `lastName` keys, a dict without
them (then `displayName` is used with default `Unknown`), or a non-dict
entry (attribute access raises, caught by the bare `except`). -/
inductive LuckOwnerEntry where
  | named (firstName lastName : String)
  | displayOnly (displayName : Option String)
  | notDict
deriving DecidableEq, Repr

/-- The `owners` JSON column as seen by `get_owner_name`: `NULL`/empty
(falsy, parsed as `[]`), unparseable JSON (`json.loads` raises, caught by
the bare `except`), or a parsed list of owner entries. -/
inductive LuckOwnersField where
  | absent
  | malformed
  | parsed (owners : List LuckOwnerEntry)
deriving DecidableEq, Repr

/-- Python `str.strip()` on both ends (whitespace). -/
def pyStrip (s : String) : String :=
  ⟨((s.data.dropWhile Char.isWhitespace).reverse.dropWhile Char.isWhitespace).reverse⟩

/-- `get_owner_name` local helper of `populate_luck_analysis`
(calculate_luck.py lines 85-96). -/
def luck_get_owner_name : LuckOwnersField → String
  | .absent => "Unknown"
  | .malformed => "Unknown"
  | .parsed [] => "Unknown"
  | .parsed (o :: _) =>
    match o with
    | .named f l => pyStrip (f ++ " " ++ l)
    | .displayOnly d => d.getD "Unknown"
    | .notDict => "Unknown"

/-- One row of the matchups query in `populate_luck_analysis`
(lines 52-73), before the `WHERE bs.home_projected > 0 AND
bs.away_projected > 0` filter: the joined `matchups`/`teams`/`box_scores`
data.  `home_projected`/`away_projected` are `Option` since the
`box_scores` columns may be `NULL`. -/
structure MatchupRow where
  year : Int
  week : Int
  home_team_id : Int
  away_team_id : Int
  home_score : ℚ
  away_score : ℚ
  home_team_name : String
  away_team_name : String
  home_owners : LuckOwnersField
  away_owners : LuckOwnersField
  home_projected : Option ℚ
  away_projected : Option ℚ
deriving DecidableEq, Repr

/-- The SQL predicate `bs.home_projected > 0` on a nullable column:
`NULL > 0` is not true. -/
def validProjected : Option ℚ → Bool
  | some p => 0 < p
  | none => false

/-- The `WHERE` clause of the matchups query (line 71):
`bs.home_projected > 0 AND bs.away_projected > 0`. -/
def matchupPassesFilter (m : MatchupRow) : Bool :=
  validProjected m.home_projected && validProjected m.away_projected

/-- One row of the `luck_analysis_matchups` table, in the column order of
the `INSERT` at lines 122-128. -/
structure LuckRow where
  year : Int
  week : Int
  team_id : Int
  team_name : String
  owner_name : String
  opponent_team_id : Int
  opponent_name : String
  luck_points : ℚ
  actual_score : ℚ
  projected_score : ℚ
  opponent_actual : ℚ
  opponent_projected : ℚ
  actual_margin : ℚ
  projected_margin : ℚ
deriving DecidableEq, Repr

/-- The two rows appended to `luck_matchups` for one query row
(lines 98-119).  The query filter guarantees both projections are
present; `getD 0` is never reached on filtered input. -/
def luckRowsOfMatchup (m : MatchupRow) : List LuckRow :=
  let home_projected := m.home_projected.getD 0
  let away_projected := m.away_projected.getD 0
  let home_owner := luck_get_owner_name m.home_owners
  let away_owner := luck_get_owner_name m.away_owners
  let home_luck := calculate_luck_for_matchup
    m.home_score home_projected m.away_score away_projected
  let away_luck := calculate_luck_for_matchup
    m.away_score away_projected m.home_score home_projected
  [ { year := m.year, week := m.week, team_id := m.home_team_id,
      team_name := m.home_team_name, owner_name := home_owner,
      opponent_team_id := m.away_team_id, opponent_name := m.away_team_name,
      luck_points := home_luck, actual_score := m.home_score,
      projected_score := home_projected, opponent_actual := m.away_score,
      opponent_projected := away_projected,
      actual_margin := m.home_score - m.away_score,
      projected_margin := home_projected - away_projected },
    { year := m.year, week := m.week, team_id := m.away_team_id,
      team_name := m.away_team_name, owner_name := away_owner,
      opponent_team_id := m.home_team_id, opponent_name := m.home_team_name,
      luck_points := away_luck, actual_score := m.away_score,
      projected_score := away_projected, opponent_actual := m.home_score,
      opponent_projected := home_projected,
      actual_margin := m.away_score - m.home_score,
      projected_margin := away_projected - home_projected } ]

/-- Contents of the `luck_analysis_matchups` table after
`populate_luck_analysis`: the table is cleared (line 48), the query keeps
only matchups with both projections valid (line 71), and each kept
matchup contributes its two perspective rows (lines 112-119). -/
def luck_analysis_matchups (ms : List MatchupRow) : List LuckRow :=
  (ms.filter matchupPassesFilter).flatMap luckRowsOfMatchup

/-- `GROUP BY year, team_name, owner_name` key of the season-aggregate
query (line 144). -/
def rowSeasonKey (r : LuckRow) : Int × String × String :=
  (r.year, r.team_name, r.owner_name)

/-- Python `min` of a nonempty list (SQL `MIN` over a nonempty group). -/
def pyMinQ : List ℚ → ℚ
  | [] => 0
  | x :: xs => xs.foldl min x

/-- Python `max` of a nonempty list (SQL `MAX` over a nonempty group). -/
def pyMaxQ : List ℚ → ℚ
  | [] => 0
  | x :: xs => xs.foldl max x

/-- One row of the season-aggregate query (lines 133-147). -/
structure SeasonAgg where
  year : Int
  team_name : String
  owner_name : String
  games_played : Nat
  total_luck : ℚ
  average_luck : ℚ
  biggest_lucky_points : ℚ
  biggest_unlucky_points : ℚ
deriving DecidableEq, Repr

/-- The season-aggregate query of `populate_luck_analysis`
(lines 133-147): group the `luck_analysis_matchups` rows by
`(year, team_name, owner_name)`, compute `COUNT`, `SUM`, `AVG`, `MAX`,
`MIN` over `luck_points`, and keep only groups with
`HAVING games_played >= 5`.  (The SQL `ORDER BY` affects presentation
order only and is not modelled.) -/
def luck_analysis_seasons (rows : List LuckRow) : List SeasonAgg :=
  ((rows.map rowSeasonKey).dedup).filterMap (fun k =>
    let grp := rows.filter (fun r => rowSeasonKey r = k)
    if 5 ≤ grp.length then
      some { year := k.1, team_name := k.2.1, owner_name := k.2.2,
             games_played := grp.length,
             total_luck := (grp.map (fun r => r.luck_points)).sum,
             average_luck := (grp.map (fun r => r.luck_points)).sum / grp.length,
             biggest_lucky_points := pyMaxQ (grp.map (fun r => r.luck_points)),
             biggest_unlucky_points := pyMinQ (grp.map (fun r => r.luck_points)) }
    else none)

/-! ## Streak detector — `python_api/db_api.py`, `get_streak_records`
(lines 636-884) -/

/-- A game result: `'W'`, `'L'` or `'T'` (db_api.py lines 738, 749). -/
inductive GameResult where
  | W
  | L
  | T
deriving DecidableEq, Repr

/-- The db_api result classification (line 738):
`'W' if score > opp else 'L' if score < opp else 'T'`. -/
def dbGameResult (score opponent_score : ℚ) : GameResult :=
  if opponent_score < score then .W
  else if score < opponent_score then .L
  else .T

/-- One per-owner game record, as consumed by the streak loop
(db_api.py lines 730-750).  The `score`/`opponent_score`/`opponent`
fields of the Python dict are carried along but never read by the streak
logic and are omitted here. -/
structure OwnerGame where
  year : Int
  week : Int
  team_name : String
  result : GameResult
deriving DecidableEq, Repr

/-- The chronological sort of an owner's games (line 768):
`games.sort(key=lambda x: (x['year'], x['week']))`, a stable sort by the
`(year, week)` key (modelled by a stable insertion sort). -/
def sortGamesChrono (games : List OwnerGame) : List OwnerGame :=
  List.insertionSort
    (fun a b => a.year < b.year ∨ (a.year = b.year ∧ a.week ≤ b.week)) games

/-- One streak record (db_api.py lines 790-801 / 819-830). -/
structure StreakRecord where
  owner : String
  type : GameResult
  length : Nat
  start_year : Int
  start_week : Int
  end_year : Int
  end_week : Int
  team_names : List String
  games : List OwnerGame
  is_current : Bool
deriving DecidableEq, Repr

/-- Build a streak record from the detector state (lines 786-801):
`streak_games = games[start_idx : start_idx + length]`, the first and
last of the slice give start/end year/week, `team_names` is the
de-duplicated set of team names of the slice (Python materialises a
`set`, whose iteration order is not modelled). -/
def closeRecord (owner : String) (games : List OwnerGame) (ty : GameResult)
    (len start_idx : Nat) (is_current : Bool) : StreakRecord :=
  let streak_games := (games.drop start_idx).take len
  { owner := owner, type := ty, length := len,
    start_year := ((streak_games.head?).map (fun g => g.year)).getD 0,
    start_week := ((streak_games.head?).map (fun g => g.week)).getD 0,
    end_year := ((streak_games.getLast?).map (fun g => g.year)).getD 0,
    end_week := ((streak_games.getLast?).map (fun g => g.week)).getD 0,
    team_names := (streak_games.map (fun g => g.team_name)).dedup,
    games := streak_games,
    is_current := is_current }

/-- The loop state of the per-owner streak scan (lines 771-776):
current streak type (`None` initially), its length, its start index,
plus the accumulated `owner_win_streaks` / `owner_loss_streaks`. -/
structure DetState where
  cur_type : Option GameResult
  cur_len : Nat
  start_idx : Nat
  wins : List StreakRecord
  losses : List StreakRecord
deriving DecidableEq, Repr

/-- Append a closed streak to the win or loss list according to its type
(lines 803-806 / 832-835). -/
def pushStreak (r : StreakRecord) (st : DetState) : DetState :=
  if r.type = .W then { st with wins := st.wins ++ [r] }
  else { st with losses := st.losses ++ [r] }

/-- One iteration of the streak loop (db_api.py lines 778-811).  A tie is
skipped: `if game['result'] in ['W', 'L']` leaves the whole state
untouched on `'T'`.  On a result equal to the current type the streak is
extended; otherwise the prior streak (if any) is closed with
`is_current = False` and a new streak of length 1 starts at index `i`. -/
def dbStep (owner : String) (games : List OwnerGame) (st : DetState)
    (ig : Nat × OwnerGame) : DetState :=
  let (i, game) := ig
  if game.result = .W ∨ game.result = .L then
    if st.cur_type = some game.result then
      { st with cur_len := st.cur_len + 1 }
    else
      let closed :=
        match st.cur_type, st.cur_len with
        | some t, Nat.succ _ =>
          pushStreak (closeRecord owner games t st.cur_len st.start_idx false) st
        | _, _ => st
      { closed with cur_type := some game.result, cur_len := 1, start_idx := i }
  else st

/-- The full per-owner scan: fold `dbStep` over the enumerated sorted
games, starting from the empty state. -/
def dbRun (owner : String) (games : List OwnerGame) : DetState :=
  (games.enum).foldl (dbStep owner games) ⟨none, 0, 0, [], []⟩

/-- The final streak closed after the loop (lines 813-830), flagged
`is_current = True`; `none` when no streak was open. -/
def dbFinalOf (owner : String) (games : List OwnerGame) (st : DetState) :
    Option StreakRecord :=
  match st.cur_type, st.cur_len with
  | some t, Nat.succ _ => some (closeRecord owner games t st.cur_len st.start_idx true)
  | _, _ => none

/-- The final (chronologically most recent) streak of an owner, computed
from the raw games: sort, scan, close. -/
def dbFinalStreak (owner : String) (raw_games : List OwnerGame) :
    Option StreakRecord :=
  let games := sortGamesChrono raw_games
  dbFinalOf owner games (dbRun owner games)

/-- Python truthiness of the optional `year` parameter: `not year` is
true for `None` and for `0`. -/
def pyNoYear : Option Int → Bool
  | none => true
  | some y => y = 0

/-- Per-owner result of the streak scan (lines 766-843): the owner's win
streaks, loss streaks (final streak appended to the matching list with
`is_current = True`), and the owner's contribution to `current_streaks`
(the final streak, only when the query is all-time and the streak has
length at least 3, line 838). -/
def dbOwnerStreaks (owner : String) (raw_games : List OwnerGame)
    (year : Option Int) :
    List StreakRecord × List StreakRecord × List StreakRecord :=
  let games := sortGamesChrono raw_games
  let st := dbRun owner games
  match dbFinalOf owner games st with
  | some f =>
    let st' := pushStreak f st
    (st'.wins, st'.losses,
      if pyNoYear year ∧ 3 ≤ f.length then [f] else [])
  | none => (st.wins, st.losses, [])

/-- All streaks reported for one owner (win streaks then loss streaks,
final streak included), used to state tie behaviour. -/
def dbOwnerAllStreaks (owner : String) (raw_games : List OwnerGame) :
    List StreakRecord :=
  (dbOwnerStreaks owner raw_games none).1 ++ (dbOwnerStreaks owner raw_games none).2.1

/-- The output of `get_streak_records` relevant to the claims. -/
structure StreakRecordsOutput where
  longest_win_streaks : List StreakRecord
  longest_loss_streaks : List StreakRecord
  current_streaks : List StreakRecord
deriving Repr

/-- The streak-records pipeline (db_api.py lines 700-881) from the
per-owner game map onward: scan each owner, concatenate the per-owner
lists, sort win/loss streaks by length descending (stable), filter the
current streaks to owners active in the most recent (2025) season — only
for all-time queries (lines 849-869) — sort them by length descending and
report the top-5 win and loss streaks.  `streakAccStep` is the per-owner
accumulation (`win_streaks.extend / loss_streaks.extend / current
appends`, db_api.py lines 838-843). -/
def streakAccStep (year : Option Int)
    (acc : List StreakRecord × List StreakRecord × List StreakRecord)
    (e : String × List OwnerGame) :
    List StreakRecord × List StreakRecord × List StreakRecord :=
  (acc.1 ++ (dbOwnerStreaks e.1 e.2 year).1,
   acc.2.1 ++ (dbOwnerStreaks e.1 e.2 year).2.1,
   acc.2.2 ++ (dbOwnerStreaks e.1 e.2 year).2.2)

/-- `get_streak_records` from the per-owner game map onward
(db_api.py lines 761-881).  `owner_games` models the `owner_games` dict
(owner name to that owner's games) and `active_owners` the owner set
derived from the 2025 `teams` rows. -/
def get_streak_records_core (owner_games : List (String × List OwnerGame))
    (year : Option Int) (active_owners : List String) : StreakRecordsOutput :=
  let acc := owner_games.foldl (streakAccStep year) ([], [], [])
  let win_streaks := List.insertionSort (fun a b => b.length ≤ a.length) acc.1
  let loss_streaks := List.insertionSort (fun a b => b.length ≤ a.length) acc.2.1
  let current₀ := acc.2.2
  let current₁ :=
    if pyNoYear year then current₀.filter (fun s => s.owner ∈ active_owners)
    else current₀
  let current := List.insertionSort (fun a b => b.length ≤ a.length) current₁
  { longest_win_streaks := win_streaks.take 5,
    longest_loss_streaks := loss_streaks.take 5,
    current_streaks := current }

/-! ## Owner-name resolution — `python_api/db_api.py`, `_get_owner_name`
(lines 386-414) with the two mapping tables (lines 347-384) -/

/-- One entry of the parsed `owners` JSON as read by `_get_owner_name`:
a dict, whose `.get('id')` yields an optional ESPN owner id, or a
non-dict entry (`.get` raises `AttributeError`, caught at line 404). -/
inductive DbOwnerEntry where
  | withId (id : Option String)
  | notDict
deriving DecidableEq, Repr

/-- The `owners` column as seen by `_get_owner_name`: falsy
(`NULL`/empty), unparseable (`json.loads` raises, caught), parsed JSON
that is not a list, or a parsed list of entries. -/
inductive DbOwnersField where
  | absent
  | malformed
  | notAList
  | parsed (owners : List DbOwnerEntry)
deriving DecidableEq, Repr

/-- The slice of a `teams` row consumed by `_get_owner_name`:
`team_data.get('owners')` and `team_data.get('team_id')`. -/
structure TeamDataRow where
  owners : DbOwnersField
  team_id : Option Int
deriving DecidableEq, Repr

/-- `_get_espn_owner_id_mapping` (db_api.py lines 347-367): ESPN owner
GUID to owner name. -/
def espn_owner_id_mapping : List (String × String) :=
  [ ("\x7bB5FBB7B7-C134-4B6B-BBB7-B7C1343B6BCF\x7d", "D\x27Anthony"),
    ("\x7b247150F3-5E23-403B-B150-F35E23603B86\x7d", "Robert"),
    ("\x7bB67B55F7-CBF5-4789-BB55-F7CBF5A78967\x7d", "Luke"),
    ("\x7b604BB883-79E2-4222-8BB8-8379E2922282\x7d", "Dylan"),
    ("\x7bE2A887FA-CFF4-4F06-A887-FACFF40F0667\x7d", "Derek"),
    ("\x7b7B4DE853-00A2-41CA-8494-216DEAD703FA\x7d", "Zach"),
    ("\x7bAC97CE73-BCAB-4F60-AF01-A4E51D98145A\x7d", "Cody"),
    ("\x7bBC146B65-4056-4B5A-946B-6540566B5ABF\x7d", "Alec"),
    ("\x7bE3298BFC-6D98-4852-AD4A-E1E138A72791\x7d", "Andre"),
    ("\x7b8AA29716-021A-4CB9-8306-8ABC5E14D5BD\x7d", "Sam"),
    ("\x7bB461B1C8-244E-4927-BFD1-FC980E492516\x7d", "Blake"),
    ("\x7b2EC18A2F-6C3B-41FF-9B3D-1305343ACF66\x7d", "Brett"),
    ("\x7bEB9FA5E5-2DF6-48AC-9FA5-E52DF688AC5F\x7d", "Shane"),
    ("\x7b49B96E8E-113F-4403-8AD7-D7E785D16975\x7d", "Julian") ]

/-- `_get_team_id_owner_mapping` (db_api.py lines 369-384): static
`team_id` to owner name table. -/
def team_id_owner_mapping : List (Int × String) :=
  [ (1, "D\x27Anthony"), (2, "Robert"), (3, "Luke"), (4, "Dylan"),
    (6, "Derek"), (8, "Nick"), (9, "Cody"), (10, "Alec"),
    (11, "Andre"), (12, "Sam"), (13, "Blake"), (14, "Charlie") ]

/-- `_get_owner_name` (db_api.py lines 386-414), mirroring its control
flow: try the first owner's truthy ESPN id against the ESPN mapping; on
any failure (falsy/malformed/non-list owners, non-dict first entry,
missing or empty id, id not in the mapping) fall through to the
`team_id` mapping; finally `"Unknown"`. -/
def db_get_owner_name (td : TeamDataRow) : String :=
  let espn_result : Option String :=
    match td.owners with
    | .absent => none
    | .malformed => none
    | .notAList => none
    | .parsed [] => none
    | .parsed (o :: _) =>
      match o with
      | .notDict => none
      | .withId none => none
      | .withId (some espn_id) =>
        if espn_id ≠ "" then espn_owner_id_mapping.lookup espn_id
        else none
  match espn_result with
  | some name => name
  | none =>
    match td.team_id with
    | some tid =>
      match team_id_owner_mapping.lookup tid with
      | some name => name
      | none => "Unknown"
    | none => "Unknown"

/-- Modelled from the spec: the first resolution tier, "matching an
external platform's stable per-person identifier when available". -/
def espnTier (td : TeamDataRow) : Option String :=
  match td.owners with
  | .parsed (DbOwnerEntry.withId (some espn_id) :: _) =>
    if espn_id ≠ "" then espn_owner_id_mapping.lookup espn_id else none
  | _ => none

/-- Modelled from the spec: the second resolution tier, "a
hand-maintained team_id→owner table". -/
def teamIdTier (td : TeamDataRow) : Option String :=
  td.team_id.bind (fun tid => team_id_owner_mapping.lookup tid)

/-- Modelled from the spec: the three-tier fallback chain
external ID → static table → "Unknown", each later tier consulted only
when every earlier tier fails. -/
def ownerNameSpecChain (td : TeamDataRow) : String :=
  match espnTier td with
  | some name => name
  | none =>
    match teamIdTier td with
    | some name => name
    | none => "Unknown"

/-! ## Legacy aggregation — `python_api/db_api.py` `get_team_legacy`
(lines 886-1043) and `python_api/app.py` `get_team_legacy`
(lines 320-474) -/

/-- Python `min` of a nonempty `Int` list. -/
def pyMinI : List Int → Int
  | [] => 0
  | x :: xs => xs.foldl min x

/-- Python `max` of a nonempty `Int` list. -/
def pyMaxI : List Int → Int
  | [] => 0
  | x :: xs => xs.foldl max x

/-- The inclusive integer range `set(range(mn, mx + 1))`, as an ascending
list. -/
def intRange (mn mx : Int) : List Int :=
  (List.range (mx + 1 - mn).toNat).map (fun i : Nat => mn + (i : Int))

/-- Gap years in the database-backed aggregation (db_api.py
lines 1006-1014): the full inclusive dataset year range — including the
current (2025) season, per the comment "include current year" — minus the
owner's active years, sorted descending. -/
def gapYearsDb (available_years : List Int) (years_active : List Int) :
    List Int :=
  if available_years ≠ [] then
    let min_year := pyMinI available_years
    let max_year := pyMaxI available_years
    ((intRange min_year max_year).filter
      (fun y => decide (y ∉ years_active))).reverse
  else []

/-- Gap years in the live-API aggregation (app.py lines 435-442): the
dataset years and the owner's active years are first restricted to
completed seasons (`year < 2025`), then full range minus active,
sorted descending. -/
def gapYearsApp (available_years : List Int) (years_active : List Int) :
    List Int :=
  let completed_years := available_years.filter (fun y => y < 2025)
  if completed_years ≠ [] then
    let mn := pyMinI completed_years
    let mx := pyMaxI completed_years
    let active_completed := years_active.filter (fun y => y < 2025)
    ((intRange mn mx).filter
      (fun y => decide (y ∉ active_completed))).reverse
  else []

/-- One `(year, placement)` pair of an owner (db_api.py line 946 /
app.py line 375). -/
structure PlacementEntry where
  year : Int
  placement : Int
deriving DecidableEq, Repr

/-- The completed-season placements (db_api.py line 998 / app.py
line 419): placements of seasons strictly before the current (2025)
season. -/
def completedPlacements (placements : List PlacementEntry) :
    List PlacementEntry :=
  placements.filter (fun p => p.year < 2025)

/-- Average placement (db_api.py lines 997-1004 / app.py lines 418-426):
the mean of the completed-season placements, `None` when the owner has no
completed season. -/
def averagePlacement (placements : List PlacementEntry) : Option ℚ :=
  let completed := completedPlacements placements
  if 0 < completed.length then
    some (((completed.map (fun p => (p.placement : ℚ))).sum) / completed.length)
  else none

/-- Modelled from the spec: the arithmetic mean of a list of rationals. -/
def listMeanQ (xs : List ℚ) : ℚ := xs.sum / xs.length

/-! ## Live-API streak records — `python_api/app.py` `get_streak_records`
(lines 476-672) -/

/-- The live-API result classification (app.py lines 527 and 540):
`"W" if score > opponent_score else "L"` — there is no tie branch, so an
equal-score game is an `L` for both sides. -/
def appGameResult (score opponent_score : ℚ) : GameResult :=
  if opponent_score < score then .W else .L

/-- One game record built by the live-API endpoint (app.py
lines 528-537 / 541-550). -/
structure AppGame where
  year : Int
  week : Int
  team_id : Int
  team_name : String
  owner : String
  result : GameResult
  score : ℚ
  opponent_score : ℚ
deriving DecidableEq, Repr

/-- The two game records appended to `all_games` for one box-score
matchup (app.py lines 525-550). -/
def appGamesOfMatchup (year week : Int) (home_id : Int) (home_name home_owner : String)
    (away_id : Int) (away_name away_owner : String) (home_score away_score : ℚ) :
    List AppGame :=
  [ { year := year, week := week, team_id := home_id, team_name := home_name,
      owner := home_owner, result := appGameResult home_score away_score,
      score := home_score, opponent_score := away_score },
    { year := year, week := week, team_id := away_id, team_name := away_name,
      owner := away_owner, result := appGameResult away_score home_score,
      score := away_score, opponent_score := home_score } ]

/-- The `current_streak` dict of the live-API streak scan (app.py
line 582): `{"type": None, "length": 0, "games": []}` initially. -/
structure AppCurStreak where
  type : Option GameResult
  length : Nat
  games : List AppGame
deriving DecidableEq, Repr

/-- A closed streak record of the live-API scan (app.py lines 592-601 /
617-627); records closed mid-scan carry no `is_current` key, modelled as
`is_current = false`. -/
structure AppStreakRec where
  owner : String
  team_names : List String
  length : Nat
  start_year : Int
  start_week : Int
  end_year : Int
  end_week : Int
  games : List AppGame
  is_current : Bool
deriving DecidableEq, Repr

/-- Build the streak record from a finished `current_streak`
(app.py lines 592-601). -/
def appCloseRecord (owner : String) (cur : AppCurStreak) (is_current : Bool) :
    AppStreakRec :=
  { owner := owner,
    team_names := (cur.games.map (fun g => g.team_name)).dedup,
    length := cur.length,
    start_year := ((cur.games.head?).map (fun g => g.year)).getD 0,
    start_week := ((cur.games.head?).map (fun g => g.week)).getD 0,
    end_year := ((cur.games.getLast?).map (fun g => g.year)).getD 0,
    end_week := ((cur.games.getLast?).map (fun g => g.week)).getD 0,
    games := cur.games,
    is_current := is_current }

/-- Loop state of the live-API streak scan: the running `current_streak`
plus the accumulated `win_streaks` and `loss_streaks`. -/
structure AppDetState where
  cur : AppCurStreak
  wins : List AppStreakRec
  losses : List AppStreakRec
deriving DecidableEq, Repr

/-- One iteration of the live-API streak loop (app.py lines 584-613):
on a result equal to the current type, extend the streak; otherwise close
the prior streak (if any) into the matching list and start a new streak
of length 1 from this game.  Every game is processed — there is no skip
branch. -/
def appStep (owner : String) (st : AppDetState) (g : AppGame) : AppDetState :=
  if st.cur.type = some g.result then
    { st with
      cur := { st.cur with
               length := st.cur.length + 1
               games := st.cur.games ++ [g] } }
  else
    let closed :=
      match st.cur.type, st.cur.length with
      | some t, Nat.succ _ =>
        let rec_ := appCloseRecord owner st.cur false
        if t = GameResult.W then { st with wins := st.wins ++ [rec_] }
        else { st with losses := st.losses ++ [rec_] }
      | _, _ => st
    { closed with cur := { type := some g.result, length := 1, games := [g] } }

/-! ## Year-bound validation — `python_api/app.py` endpoints
`get_available_weeks` (lines 106-147), `get_league_stats_by_year`
(lines 158-187), `get_champions_by_year` (lines 281-318) -/

/-- A raised Python exception: FastAPI's `HTTPException` (which is an
`Exception` subclass, so a plain `except Exception` catches it), or any
other exception carrying its message. -/
inductive PyExc where
  | httpExc (status : Nat) (detail : String)
  | pyErr (msg : String)
deriving DecidableEq, Repr

/-- Python `str(e)` for a caught exception, as interpolated into the
500 detail string. -/
def pyExcStr : PyExc → String
  | .httpExc status detail => toString status ++ ": " ++ detail
  | .pyErr msg => msg

/-- The `try:` body shared by the three year-validated endpoints: a year
outside `[lo, hi]` raises `HTTPException(status_code=400, detail=detail400)`;
otherwise the upstream ESPN work runs (its failures raise ordinary
exceptions, modelled by the `upstream` argument) and its payload is
returned. -/
def yearBoundTryBody (lo hi : Int) (detail400 : String) (year : Int)
    (upstream : Except String (List String)) :
    Except PyExc (List String) :=
  if ¬ (lo ≤ year ∧ year ≤ hi) then
    Except.error (.httpExc 400 detail400)
  else
    match upstream with
    | .error msg => .error (.pyErr msg)
    | .ok payload => .ok payload

/-- The full endpoint handler: the `try` body wrapped in
`except Exception as e: raise HTTPException(status_code=500, ...)`.
Because `HTTPException` is itself an `Exception`, the 400 raised by the
bounds check is caught here too and re-raised as a 500. -/
def yearBoundEndpoint (lo hi : Int) (detail400 prefix500 : String) (year : Int)
    (upstream : Except String (List String)) :
    Except PyExc (List String) :=
  match yearBoundTryBody lo hi detail400 year upstream with
  | .ok payload => .ok payload
  | .error e => .error (.httpExc 500 (prefix500 ++ pyExcStr e))

/-- HTTP status of the response FastAPI sends for a handler outcome. -/
def responseStatus : Except PyExc (List String) → Nat
  | .ok _ => 200
  | .error (.httpExc status _) => status
  | .error (.pyErr _) => 500

/-- `GET /available-weeks/{year}` (app.py lines 106-147): bounds
2019-2025. -/
def availableWeeksEndpoint (year : Int) (upstream : Except String (List String)) :
    Except PyExc (List String) :=
  yearBoundEndpoint 2019 2025 "Year must be between 2019 and 2025"
    "Failed to fetch available weeks: " year upstream

/-- `GET /league/stats/{year}` (app.py lines 158-187): bounds
2015-2024. -/
def leagueStatsEndpoint (year : Int) (upstream : Except String (List String)) :
    Except PyExc (List String) :=
  yearBoundEndpoint 2015 2024 "Year must be between 2015 and 2024"
    "Failed to fetch league stats: " year upstream

/-- `GET /champions/{year}` (app.py lines 281-318): bounds 2015-2025. -/
def championsByYearEndpoint (year : Int) (upstream : Except String (List String)) :
    Except PyExc (List String) :=
  yearBoundEndpoint 2015 2025 "Year must be between 2015 and 2025"
    "Failed to fetch champions: " year upstream

/-! ## Scan invariant and concrete inputs used by the theorems -/

/-- Invariant of the per-owner streak scan state: every already-closed
streak is flagged non-current, carries the scanned owner's name, and has
type `W` or `L`; the open streak type is never `T`. -/
def detInv (owner : String) (st : DetState) : Prop :=
  (∀ r ∈ st.wins, r.is_current = false ∧ r.owner = owner ∧
    (r.type = GameResult.W ∨ r.type = GameResult.L)) ∧
  (∀ r ∈ st.losses, r.is_current = false ∧ r.owner = owner ∧
    (r.type = GameResult.W ∨ r.type = GameResult.L)) ∧
  st.cur_type ≠ some GameResult.T

/-- A matchup row whose home projection is `NULL`. -/
def c3_invalid_matchup : MatchupRow :=
  { year := 2024, week := 3, home_team_id := 1, away_team_id := 2,
    home_score := 100, away_score := 90,
    home_team_name := "A", away_team_name := "B",
    home_owners := .absent, away_owners := .absent,
    home_projected := none, away_projected := some 95 }

/-- A matchup row with both projections valid. -/
def c3_valid_matchup : MatchupRow :=
  { year := 2024, week := 3, home_team_id := 3, away_team_id := 4,
    home_score := 80, away_score := 85,
    home_team_name := "C", away_team_name := "D",
    home_owners := .absent, away_owners := .absent,
    home_projected := some 82, away_projected := some 88 }

/-- The placements of the spec example, with the in-progress season. -/
def c5_placements : List PlacementEntry := [⟨2021, 1⟩, ⟨2022, 3⟩, ⟨2025, 1⟩]

/-- A luck row for the C9 witness (fields beyond the grouping key are
zero). -/
def c9_row (w : Int) : LuckRow :=
  { year := 2024, week := w, team_id := 1, team_name := "A", owner_name := "O",
    opponent_team_id := 2, opponent_name := "B", luck_points := 0,
    actual_score := 0, projected_score := 0, opponent_actual := 0,
    opponent_projected := 0, actual_margin := 0, projected_margin := 0 }

/-- Five rows of one `(year, team_name, owner_name)` group. -/
def c9_rows : List LuckRow := [c9_row 1, c9_row 2, c9_row 3, c9_row 4, c9_row 5]

/-- A concrete loss game for the C10 witness. -/
def c10_loss_game : AppGame :=
  { year := 2024, week := 1, team_id := 1, team_name := "T1", owner := "Ann",
    result := GameResult.L, score := 80, opponent_score := 80 }

/-- The initial live-API scan state. -/
def appInitState : AppDetState :=
  { cur := { type := none, length := 0, games := [] }, wins := [], losses := [] }

/-- The owner game sequence [W, T, W] of the C2 counterexample. -/
def c2_games : List OwnerGame :=
  [⟨2024, 1, "Alpha", GameResult.W⟩,
   ⟨2024, 2, "Alpha", GameResult.T⟩,
   ⟨2024, 3, "Alpha", GameResult.W⟩]

/-- The tie game of the C2 witness. -/
def c2_tie_game : OwnerGame := ⟨2024, 2, "Alpha", GameResult.T⟩

/-- A detector state with an open win streak of length 1. -/
def c2_state : DetState := ⟨some GameResult.W, 1, 0, [], []⟩

/-- The owner game sequence [W, W, W] of the C6 witness. -/
def c6_games : List OwnerGame :=
  [⟨2024, 1, "T1", GameResult.W⟩,
   ⟨2024, 2, "T1", GameResult.W⟩,
   ⟨2024, 3, "T1", GameResult.W⟩]

/-- The per-owner game map of the C6 witness. -/
def c6_og : List (String × List OwnerGame) := [("Ann", c6_games)]

/-! ## Claim theorems -/

/-- C1: for every matchup, the home side's luck score and the away side's
luck score sum to exactly zero — `calculate_luck_for_matchup(a,b,c,d) +
calculate_luck_for_matchup(c,d,a,b) = 0` for all scores — and hence the
pair of rows emitted for one matchup has `luck_points` summing to zero. -/
theorem luck_is_zero_sum :
    (∀ a b c d : ℚ,
      calculate_luck_for_matchup a b c d + calculate_luck_for_matchup c d a b = 0) ∧
    (∀ m : MatchupRow,
      ((luckRowsOfMatchup m).map (fun r => r.luck_points)).sum = 0) := by
  constructor
  · intro a b c d
    simp only [calculate_luck_for_matchup]
    ring
  · intro m
    simp only [luckRowsOfMatchup, calculate_luck_for_matchup, List.map_cons,
      List.map_nil, List.sum_cons, List.sum_nil]
    ring

/-- C3: a matchup whose projected scores are missing (`NULL`) or not
strictly positive on either side is excluded from luck aggregation
entirely: it contributes no `luck_analysis_matchups` rows, and the season
aggregates — computed from those rows — are unchanged by its presence. -/
theorem invalid_projection_excluded (ms₁ ms₂ : List MatchupRow) (m : MatchupRow)
    (h : matchupPassesFilter m = false) :
    luck_analysis_matchups (ms₁ ++ m :: ms₂) = luck_analysis_matchups (ms₁ ++ ms₂) ∧
    luck_analysis_seasons (luck_analysis_matchups (ms₁ ++ m :: ms₂)) =
      luck_analysis_seasons (luck_analysis_matchups (ms₁ ++ ms₂)) := by
  have key : luck_analysis_matchups (ms₁ ++ m :: ms₂) =
      luck_analysis_matchups (ms₁ ++ ms₂) := by
    simp [luck_analysis_matchups, List.filter_append, List.filter_cons, h]
  exact ⟨key, by rw [key]⟩

/-- Witness for C3 at a concrete input. -/
theorem invalid_projection_excluded_witness :
    luck_analysis_matchups ([c3_valid_matchup] ++ c3_invalid_matchup :: []) =
      luck_analysis_matchups ([c3_valid_matchup] ++ []) ∧
    luck_analysis_seasons
        (luck_analysis_matchups ([c3_valid_matchup] ++ c3_invalid_matchup :: [])) =
      luck_analysis_seasons (luck_analysis_matchups ([c3_valid_matchup] ++ [])) :=
  invalid_projection_excluded [c3_valid_matchup] [] c3_invalid_matchup rfl

/-- C5: average placement is the arithmetic mean over exactly the
completed seasons (years strictly before the in-progress 2025 season):
an owner with no completed season gets `none`, an owner with completed
seasons gets the mean over them, and a 2025 placement entry changes
neither numerator nor denominator. -/
theorem average_placement_completed_only :
    (∀ placements : List PlacementEntry,
      completedPlacements placements = [] → averagePlacement placements = none) ∧
    (∀ placements : List PlacementEntry, completedPlacements placements ≠ [] →
      averagePlacement placements =
        some (listMeanQ
          ((completedPlacements placements).map (fun p => (p.placement : ℚ))))) ∧
    (∀ pls₁ pls₂ : List PlacementEntry, ∀ e : PlacementEntry, e.year = 2025 →
      averagePlacement (pls₁ ++ e :: pls₂) = averagePlacement (pls₁ ++ pls₂)) := by
  refine ⟨?_, ?_, ?_⟩
  · intro placements h
    simp [averagePlacement, h]
  · intro placements h
    have hpos : 0 < (completedPlacements placements).length :=
      List.length_pos.mpr h
    simp [averagePlacement, hpos, listMeanQ]
  · intro pls₁ pls₂ e he
    have hnot : ¬ (e.year < 2025) := by omega
    simp [averagePlacement, completedPlacements, List.filter_append,
      List.filter_cons, hnot]

/-- Witness for C5 at the spec example input. -/
theorem average_placement_completed_only_witness :
    averagePlacement [(⟨2025, 4⟩ : PlacementEntry)] = none ∧
    averagePlacement c5_placements =
      some (listMeanQ
        ((completedPlacements c5_placements).map (fun p => (p.placement : ℚ)))) ∧
    averagePlacement ([⟨2021, 1⟩, ⟨2022, 3⟩] ++ (⟨2025, 1⟩ : PlacementEntry) :: []) =
      averagePlacement ([⟨2021, 1⟩, ⟨2022, 3⟩] ++ []) :=
  ⟨average_placement_completed_only.1 [⟨2025, 4⟩] (by decide),
   average_placement_completed_only.2.1 c5_placements (by decide),
   average_placement_completed_only.2.2 [⟨2021, 1⟩, ⟨2022, 3⟩] [] ⟨2025, 1⟩ rfl⟩

/-- C7: `_get_owner_name` is total — every input shape, malformed JSON
included, yields a name — and equals the three-tier fallback chain
ESPN-id mapping, then team_id table, then `"Unknown"`, a later tier
consulted exactly when every earlier one fails. -/
theorem owner_resolution_three_tier :
    ∀ td : TeamDataRow, db_get_owner_name td = ownerNameSpecChain td := by
  intro td
  rcases td with ⟨owners, tid⟩
  cases owners with
  | absent => cases tid <;> rfl
  | malformed => cases tid <;> rfl
  | notAList => cases tid <;> rfl
  | parsed os =>
    cases os with
    | nil => cases tid <;> rfl
    | cons o rest =>
      cases o with
      | notDict => cases tid <;> rfl
      | withId id =>
        cases id with
        | none => cases tid <;> rfl
        | some s => cases tid <;> rfl

/-- C8 (code bug): the year-bound validation of the three endpoints
raises its `HTTPException(400)` inside the `try:` block, and the blanket
`except Exception` converts it into a 500 — so an out-of-range year
yields a server error, never the intended client error.  At year 2030
each endpoint answers 500, and in fact no input can produce a 400. -/
theorem year_bounds_always_500 :
    responseStatus (availableWeeksEndpoint 2030 (.ok [])) = 500 ∧
    responseStatus (leagueStatsEndpoint 2030 (.ok [])) = 500 ∧
    responseStatus (championsByYearEndpoint 2030 (.ok [])) = 500 ∧
    (∀ (year : Int) (upstream : Except String (List String)),
      responseStatus (availableWeeksEndpoint year upstream) = 200 ∨
      responseStatus (availableWeeksEndpoint year upstream) = 500) ∧
    (∀ (year : Int) (upstream : Except String (List String)),
      responseStatus (leagueStatsEndpoint year upstream) = 200 ∨
      responseStatus (leagueStatsEndpoint year upstream) = 500) ∧
    (∀ (year : Int) (upstream : Except String (List String)),
      responseStatus (championsByYearEndpoint year upstream) = 200 ∨
      responseStatus (championsByYearEndpoint year upstream) = 500) := by
  have general : ∀ (lo hi : Int) (d p : String) (year : Int)
      (upstream : Except String (List String)),
      responseStatus (yearBoundEndpoint lo hi d p year upstream) = 200 ∨
      responseStatus (yearBoundEndpoint lo hi d p year upstream) = 500 := by
    intro lo hi d p year upstream
    by_cases hy : ¬ (lo ≤ year ∧ year ≤ hi)
    · right
      simp [yearBoundEndpoint, yearBoundTryBody, hy, responseStatus]
    · cases upstream with
      | error msg =>
        right
        simp [yearBoundEndpoint, yearBoundTryBody, hy, responseStatus]
      | ok payload =>
        left
        simp [yearBoundEndpoint, yearBoundTryBody, hy, responseStatus]
  refine ⟨by decide, by decide, by decide, ?_, ?_, ?_⟩
  · exact fun year upstream => general 2019 2025 _ _ year upstream
  · exact fun year upstream => general 2015 2024 _ _ year upstream
  · exact fun year upstream => general 2015 2025 _ _ year upstream

/-- C10: the live-API streak endpoint classifies every game as exactly
`W` or `L` — never `T` — with `W` iff the side's score strictly exceeds
the opponent's; a tied game is therefore an `L` for both sides, and the
streak machine processes an `L` like any result: it extends an active
loss streak or starts a fresh one, never skipping the game. -/
theorem app_result_has_no_tie_category :
    (∀ score opponent_score : ℚ, appGameResult score opponent_score ≠ GameResult.T) ∧
    (∀ score opponent_score : ℚ,
      appGameResult score opponent_score = GameResult.W ↔ opponent_score < score) ∧
    (∀ hs as_ : ℚ, hs = as_ →
      ((appGamesOfMatchup 0 0 1 "h" "ho" 2 "a" "ao" hs as_).map (fun g => g.result)) =
        [GameResult.L, GameResult.L]) ∧
    (∀ (owner : String) (st : AppDetState) (g : AppGame),
      g.result = GameResult.L →
      (appStep owner st g).cur.type = some GameResult.L ∧
      (appStep owner st g).cur.length =
        (if st.cur.type = some GameResult.L then st.cur.length + 1 else 1)) := by
  refine ⟨?_, ?_, ?_, ?_⟩
  · intro s o
    unfold appGameResult
    split <;> simp
  · intro s o
    unfold appGameResult
    split <;> simp_all
  · intro hs as_ h
    subst h
    simp [appGamesOfMatchup, appGameResult]
  · intro owner st g hg
    by_cases hcur : st.cur.type = some g.result
    · rw [hg] at hcur
      constructor
      · simp [appStep, hg, hcur]
      · simp [appStep, hg, hcur]
    · have hcur' : ¬ st.cur.type = some GameResult.L := by rw [hg] at hcur; exact hcur
      constructor
      · simp [appStep, hg, hcur, hcur']
      · simp [appStep, hg, hcur, hcur']

/-- Witness for C10 at concrete inputs. -/
theorem app_result_has_no_tie_category_witness :
    (((appGamesOfMatchup 0 0 1 "h" "ho" 2 "a" "ao" 80 80).map (fun g => g.result)) =
      [GameResult.L, GameResult.L]) ∧
    (appStep "Ann" appInitState c10_loss_game).cur.type = some GameResult.L ∧
    (appStep "Ann" appInitState c10_loss_game).cur.length =
      (if appInitState.cur.type = some GameResult.L then appInitState.cur.length + 1
       else 1) :=
  ⟨app_result_has_no_tie_category.2.2.1 80 80 rfl,
   app_result_has_no_tie_category.2.2.2 "Ann" appInitState c10_loss_game rfl⟩

/-- Membership in the inclusive integer range. -/
theorem mem_intRange {mn mx y : Int} : y ∈ intRange mn mx ↔ mn ≤ y ∧ y ≤ mx := by
  simp only [intRange, List.mem_map, List.mem_range]
  constructor
  · rintro ⟨i, hi, rfl⟩
    omega
  · rintro ⟨h1, h2⟩
    refine ⟨(y - mn).toNat, by omega, by omega⟩

/-- C4 counterexample: with dataset years {2024, 2025} (2025 being the
in-progress season) and an owner active only in 2024, the database-backed
legacy aggregation reports gap years [2025] — it includes the
currently-in-progress season, where the claim requires the gap set
restricted to completed seasons, i.e. the empty set. -/
theorem gap_years_include_current_counterexample :
    gapYearsDb [2024, 2025] [2024] = [2025] ∧
    (2025 : Int) ∈ gapYearsDb [2024, 2025] [2024] := by
  constructor <;> decide

/-- C4 (amended): the two legacy aggregations differ.  The live-API
version (app.py) computes gap years over the dataset's completed
(< 2025) seasons only — a year is a gap year iff it lies in the inclusive
range of the completed dataset years and the owner was active in no
completed season of that year.  The database-backed version (db_api.py)
computes gap years over the full dataset range including the in-progress
2025 season. -/
theorem gap_years_characterization :
    (∀ (avail active : List Int) (y : Int),
      y ∈ gapYearsDb avail active ↔
        (avail ≠ [] ∧ pyMinI avail ≤ y ∧ y ≤ pyMaxI avail ∧ y ∉ active)) ∧
    (∀ (avail active : List Int) (y : Int),
      y ∈ gapYearsApp avail active ↔
        (avail.filter (fun x => x < 2025) ≠ [] ∧
         pyMinI (avail.filter (fun x => x < 2025)) ≤ y ∧
         y ≤ pyMaxI (avail.filter (fun x => x < 2025)) ∧
         y ∉ active.filter (fun x => x < 2025))) := by
  constructor
  · intro avail active y
    by_cases h : avail = []
    · simp [gapYearsDb, h]
    · simp only [gapYearsDb, h, ne_eq, not_false_eq_true, if_true,
        List.mem_reverse, List.mem_filter, mem_intRange, decide_eq_true_eq]
      tauto
  · intro avail active y
    by_cases h : avail.filter (fun x => x < 2025) = []
    · simp [gapYearsApp, h]
    · simp only [gapYearsApp, h, ne_eq, not_false_eq_true, if_true,
        List.mem_reverse, List.mem_filter, mem_intRange, decide_eq_true_eq]
      tauto

/-- C9: every record the season-aggregate step produces has
`games_played ≥ 5` (the `HAVING games_played >= 5` clause), and its
`games_played` counts exactly the luck rows of its
`(year, team_name, owner_name)` group — so a group with fewer than 5
luck rows yields no season aggregate at all. -/
theorem season_aggregates_min_five_games :
    ∀ rows : List LuckRow, ∀ agg ∈ luck_analysis_seasons rows,
      5 ≤ agg.games_played ∧
      agg.games_played = (rows.filter (fun r =>
        rowSeasonKey r = (agg.year, agg.team_name, agg.owner_name))).length := by
  intro rows agg hmem
  simp only [luck_analysis_seasons, List.mem_filterMap] at hmem
  obtain ⟨k, _, hk⟩ := hmem
  by_cases hlen : 5 ≤ (rows.filter (fun r => rowSeasonKey r = k)).length
  · rw [if_pos hlen] at hk
    injection hk with h
    subst h
    exact ⟨hlen, rfl⟩
  · rw [if_neg hlen] at hk
    exact absurd hk (by simp)

/-- Witness for C9 at a concrete input. -/
theorem season_aggregates_min_five_games_witness :
    5 ≤ ((luck_analysis_seasons c9_rows).head (by decide)).games_played ∧
    ((luck_analysis_seasons c9_rows).head (by decide)).games_played =
      (c9_rows.filter (fun r =>
        rowSeasonKey r =
          (((luck_analysis_seasons c9_rows).head (by decide)).year,
           ((luck_analysis_seasons c9_rows).head (by decide)).team_name,
           ((luck_analysis_seasons c9_rows).head (by decide)).owner_name))).length :=
  season_aggregates_min_five_games c9_rows _ (List.head_mem _)

/-! ## Streak scan invariants (helper lemmas for the streak claims) -/

theorem closeRecord_is_current (o : String) (gs : List OwnerGame)
    (t : GameResult) (len si : Nat) (b : Bool) :
    (closeRecord o gs t len si b).is_current = b := rfl

theorem closeRecord_owner (o : String) (gs : List OwnerGame)
    (t : GameResult) (len si : Nat) (b : Bool) :
    (closeRecord o gs t len si b).owner = o := rfl

theorem closeRecord_type (o : String) (gs : List OwnerGame)
    (t : GameResult) (len si : Nat) (b : Bool) :
    (closeRecord o gs t len si b).type = t := rfl

theorem pushStreak_wins_mem (r : StreakRecord) (st : DetState) (s : StreakRecord)
    (h : s ∈ (pushStreak r st).wins) : s ∈ st.wins ∨ s = r := by
  unfold pushStreak at h
  split at h
  · simp only [List.mem_append, List.mem_singleton] at h
    exact h
  · exact Or.inl h

theorem pushStreak_losses_mem (r : StreakRecord) (st : DetState) (s : StreakRecord)
    (h : s ∈ (pushStreak r st).losses) : s ∈ st.losses ∨ s = r := by
  unfold pushStreak at h
  split at h
  · exact Or.inl h
  · simp only [List.mem_append, List.mem_singleton] at h
    exact h

theorem detInv_push (owner : String) (r : StreakRecord) (st : DetState)
    (h : detInv owner st)
    (hr : r.is_current = false ∧ r.owner = owner ∧
      (r.type = GameResult.W ∨ r.type = GameResult.L)) :
    detInv owner (pushStreak r st) := by
  obtain ⟨hw, hl, hct⟩ := h
  refine ⟨?_, ?_, ?_⟩
  · intro s hs
    rcases pushStreak_wins_mem r st s hs with h' | rfl
    · exact hw s h'
    · exact hr
  · intro s hs
    rcases pushStreak_losses_mem r st s hs with h' | rfl
    · exact hl s h'
    · exact hr
  · unfold pushStreak
    split <;> exact hct

theorem detInv_step (owner : String) (games : List OwnerGame) (st : DetState)
    (ig : Nat × OwnerGame) (h : detInv owner st) :
    detInv owner (dbStep owner games st ig) := by
  obtain ⟨i, g⟩ := ig
  obtain ⟨ct, cl, si, ws, ls⟩ := st
  obtain ⟨hw, hl, hct⟩ := h
  unfold dbStep
  dsimp only
  by_cases hc : g.result = GameResult.W ∨ g.result = GameResult.L
  · rw [if_pos hc]
    by_cases hcur : ct = some g.result
    · rw [if_pos hcur]
      exact ⟨hw, hl, hct⟩
    · rw [if_neg hcur]
      have hsomeT : (some g.result : Option GameResult) ≠ some GameResult.T := by
        intro hcon
        rcases hc with h₁ | h₁ <;> rw [h₁] at hcon <;> exact absurd (Option.some.inj hcon) (by simp)
      cases ct with
      | none =>
        cases cl with
        | zero => exact ⟨hw, hl, hsomeT⟩
        | succ n => exact ⟨hw, hl, hsomeT⟩
      | some t =>
        have htWL : t = GameResult.W ∨ t = GameResult.L := by
          cases t with
          | W => exact Or.inl rfl
          | L => exact Or.inr rfl
          | T => exact absurd rfl hct
        cases cl with
        | zero => exact ⟨hw, hl, hsomeT⟩
        | succ n =>
          have hinv := detInv_push owner
            (closeRecord owner games t (n + 1) si false) ⟨some t, n + 1, si, ws, ls⟩
            ⟨hw, hl, hct⟩ ⟨rfl, rfl, htWL⟩
          exact ⟨hinv.1, hinv.2.1, hsomeT⟩
  · rw [if_neg hc]
    exact ⟨hw, hl, hct⟩

theorem detInv_foldl (owner : String) (games : List OwnerGame)
    (l : List (Nat × OwnerGame)) (st : DetState) (h : detInv owner st) :
    detInv owner (l.foldl (dbStep owner games) st) := by
  induction l generalizing st with
  | nil => exact h
  | cons x xs ih => exact ih _ (detInv_step owner games st x h)

theorem detInv_run (owner : String) (games : List OwnerGame) :
    detInv owner (dbRun owner games) := by
  apply detInv_foldl
  exact ⟨fun r hr => absurd hr (List.not_mem_nil r), fun r hr => absurd hr (List.not_mem_nil r), by simp⟩

theorem dbFinalOf_some (owner : String) (games : List OwnerGame) (st : DetState)
    (f : StreakRecord) (h : dbFinalOf owner games st = some f) :
    f.is_current = true ∧ f.owner = owner ∧
    ∃ t, st.cur_type = some t ∧ f.type = t := by
  obtain ⟨ct, cl, si, ws, ls⟩ := st
  unfold dbFinalOf at h
  dsimp only at h
  cases ct with
  | none => cases cl <;> cases h
  | some t =>
    cases cl with
    | zero => cases h
    | succ n =>
      injection h with h
      subst h
      exact ⟨rfl, rfl, t, rfl, rfl⟩

theorem dbOwnerStreaks_current_mem (owner : String) (raw_games : List OwnerGame)
    (year : Option Int) (s : StreakRecord)
    (h : s ∈ (dbOwnerStreaks owner raw_games year).2.2) :
    pyNoYear year = true ∧ 3 ≤ s.length ∧ s.is_current = true ∧
    s.owner = owner ∧ dbFinalStreak owner raw_games = some s := by
  unfold dbOwnerStreaks at h
  dsimp only at h
  rcases hf : dbFinalOf owner (sortGamesChrono raw_games)
      (dbRun owner (sortGamesChrono raw_games)) with _ | f
  · rw [hf] at h
    exact absurd h (List.not_mem_nil s)
  · rw [hf] at h
    dsimp only at h
    split at h
    · rename_i hcond
      rcases List.mem_singleton.mp h with rfl
      obtain ⟨hfc, hfo, _⟩ := dbFinalOf_some owner _ _ s hf
      refine ⟨hcond.1, hcond.2, hfc, hfo, ?_⟩
      unfold dbFinalStreak
      exact hf
    · exact absurd h (List.not_mem_nil s)

theorem dbOwnerStreaks_winloss_mem (owner : String) (raw_games : List OwnerGame)
    (year : Option Int) (s : StreakRecord)
    (h : s ∈ (dbOwnerStreaks owner raw_games year).1 ∨
         s ∈ (dbOwnerStreaks owner raw_games year).2.1) :
    s.owner = owner ∧ (s.type = GameResult.W ∨ s.type = GameResult.L) ∧
    (s.is_current = true → dbFinalStreak owner raw_games = some s) := by
  have hinv := detInv_run owner (sortGamesChrono raw_games)
  unfold dbOwnerStreaks at h
  dsimp only at h
  rcases hf : dbFinalOf owner (sortGamesChrono raw_games)
      (dbRun owner (sortGamesChrono raw_games)) with _ | f
  · rw [hf] at h
    dsimp only at h
    rcases h with h | h
    · obtain ⟨hcur, hown, htyp⟩ := hinv.1 s h
      exact ⟨hown, htyp, fun hc => absurd (hcur ▸ hc) (by simp)⟩
    · obtain ⟨hcur, hown, htyp⟩ := hinv.2.1 s h
      exact ⟨hown, htyp, fun hc => absurd (hcur ▸ hc) (by simp)⟩
  · rw [hf] at h
    dsimp only at h
    obtain ⟨hfc, hfo, t, hct, hft⟩ := dbFinalOf_some owner _ _ f hf
    have htWL : f.type = GameResult.W ∨ f.type = GameResult.L := by
      rw [hft]
      cases t with
      | W => exact Or.inl rfl
      | L => exact Or.inr rfl
      | T => exact absurd hct hinv.2.2
    have hfinal : dbFinalStreak owner raw_games = some f := by
      unfold dbFinalStreak
      exact hf
    rcases h with h | h
    · rcases pushStreak_wins_mem f _ s h with h' | rfl
      · obtain ⟨hcur, hown, htyp⟩ := hinv.1 s h'
        exact ⟨hown, htyp, fun hc => absurd (hcur ▸ hc) (by simp)⟩
      · exact ⟨hfo, htWL, fun _ => hfinal⟩
    · rcases pushStreak_losses_mem f _ s h with h' | rfl
      · obtain ⟨hcur, hown, htyp⟩ := hinv.2.1 s h'
        exact ⟨hown, htyp, fun hc => absurd (hcur ▸ hc) (by simp)⟩
      · exact ⟨hfo, htWL, fun _ => hfinal⟩

theorem streakAcc_foldl_mem (year : Option Int)
    (og : List (String × List OwnerGame)) :
    ∀ (acc : List StreakRecord × List StreakRecord × List StreakRecord)
      (s : StreakRecord),
      (s ∈ (og.foldl (streakAccStep year) acc).1 →
        s ∈ acc.1 ∨ ∃ e, e ∈ og ∧ s ∈ (dbOwnerStreaks e.1 e.2 year).1) ∧
      (s ∈ (og.foldl (streakAccStep year) acc).2.1 →
        s ∈ acc.2.1 ∨ ∃ e, e ∈ og ∧ s ∈ (dbOwnerStreaks e.1 e.2 year).2.1) ∧
      (s ∈ (og.foldl (streakAccStep year) acc).2.2 →
        s ∈ acc.2.2 ∨ ∃ e, e ∈ og ∧ s ∈ (dbOwnerStreaks e.1 e.2 year).2.2) := by
  induction og with
  | nil =>
    intro acc s
    exact ⟨fun h => Or.inl h, fun h => Or.inl h, fun h => Or.inl h⟩
  | cons e og ih =>
    intro acc s
    refine ⟨fun h => ?_, fun h => ?_, fun h => ?_⟩
    · rcases (ih (streakAccStep year acc e) s).1 h with h' | ⟨e', he', hs⟩
      · rcases List.mem_append.mp h' with h'' | h''
        · exact Or.inl h''
        · exact Or.inr ⟨e, List.mem_cons_self e og, h''⟩
      · exact Or.inr ⟨e', List.mem_cons_of_mem e he', hs⟩
    · rcases (ih (streakAccStep year acc e) s).2.1 h with h' | ⟨e', he', hs⟩
      · rcases List.mem_append.mp h' with h'' | h''
        · exact Or.inl h''
        · exact Or.inr ⟨e, List.mem_cons_self e og, h''⟩
      · exact Or.inr ⟨e', List.mem_cons_of_mem e he', hs⟩
    · rcases (ih (streakAccStep year acc e) s).2.2 h with h' | ⟨e', he', hs⟩
      · rcases List.mem_append.mp h' with h'' | h''
        · exact Or.inl h''
        · exact Or.inr ⟨e, List.mem_cons_self e og, h''⟩
      · exact Or.inr ⟨e', List.mem_cons_of_mem e he', hs⟩

/-- C6: only the final streak of an owner is ever flagged current, and a
streak is reported in `current_streaks` only when the query is all-time,
its length is at least 3, its owner is in the active-owner set, and it is
the final streak of that owner's game sequence; every reported current
streak satisfies all of these. -/
theorem current_streaks_sound :
    ∀ (owner_games : List (String × List OwnerGame)) (year : Option Int)
      (active_owners : List String),
      (∀ s ∈ (get_streak_records_core owner_games year active_owners).current_streaks,
        pyNoYear year = true ∧ s.is_current = true ∧ 3 ≤ s.length ∧
        s.owner ∈ active_owners ∧
        ∃ games, (s.owner, games) ∈ owner_games ∧
          dbFinalStreak s.owner games = some s) ∧
      (∀ s : StreakRecord,
        (s ∈ (get_streak_records_core owner_games year active_owners).longest_win_streaks ∨
         s ∈ (get_streak_records_core owner_games year active_owners).longest_loss_streaks) →
        s.is_current = true →
        ∃ games, (s.owner, games) ∈ owner_games ∧
          dbFinalStreak s.owner games = some s) := by
  intro og year active
  constructor
  · intro s hs
    unfold get_streak_records_core at hs
    dsimp only at hs
    have hs₁ := (List.mem_insertionSort
      (fun a b : StreakRecord => b.length ≤ a.length)).mp hs
    have hs₂ : s ∈ (og.foldl (streakAccStep year) ([], [], [])).2.2 ∧
        (pyNoYear year = true → s.owner ∈ active) := by
      by_cases hy : pyNoYear year = true
      · rw [if_pos hy] at hs₁
        have := List.mem_filter.mp hs₁
        exact ⟨this.1, fun _ => by simpa using this.2⟩
      · rw [if_neg hy] at hs₁
        exact ⟨hs₁, fun h => absurd h hy⟩
    rcases (streakAcc_foldl_mem year og ([], [], []) s).2.2 hs₂.1 with
      h | ⟨e, he, hcur⟩
    · exact absurd h (List.not_mem_nil s)
    · obtain ⟨hy, hlen, hc, hown, hfin⟩ :=
        dbOwnerStreaks_current_mem e.1 e.2 year s hcur
      refine ⟨hy, hc, hlen, hs₂.2 hy, e.2, ?_, ?_⟩
      · rw [hown]
        exact he
      · rw [hown]
        exact hfin
  · intro s hs hc
    unfold get_streak_records_core at hs
    dsimp only at hs
    have hs' : s ∈ (og.foldl (streakAccStep year) ([], [], [])).1 ∨
        s ∈ (og.foldl (streakAccStep year) ([], [], [])).2.1 := by
      rcases hs with h | h
      · exact Or.inl ((List.mem_insertionSort
          (fun a b : StreakRecord => b.length ≤ a.length)).mp (List.take_subset 5 _ h))
      · exact Or.inr ((List.mem_insertionSort
          (fun a b : StreakRecord => b.length ≤ a.length)).mp (List.take_subset 5 _ h))
    rcases hs' with h | h
    · rcases (streakAcc_foldl_mem year og ([], [], []) s).1 h with
        h' | ⟨e, he, hmem⟩
      · exact absurd h' (List.not_mem_nil s)
      · obtain ⟨hown, _, hfin⟩ :=
          dbOwnerStreaks_winloss_mem e.1 e.2 year s (Or.inl hmem)
        refine ⟨e.2, ?_, ?_⟩
        · rw [hown]
          exact he
        · rw [hown]
          exact hfin hc
    · rcases (streakAcc_foldl_mem year og ([], [], []) s).2.1 h with
        h' | ⟨e, he, hmem⟩
      · exact absurd h' (List.not_mem_nil s)
      · obtain ⟨hown, _, hfin⟩ :=
          dbOwnerStreaks_winloss_mem e.1 e.2 year s (Or.inr hmem)
        refine ⟨e.2, ?_, ?_⟩
        · rw [hown]
          exact he
        · rw [hown]
          exact hfin hc

/-- C2 counterexample: the streak loop skips a tie without resetting its
state, so the sequence [W, T, W] is reported as ONE win streak of
length 2 — not as the two win streaks of length 1 the claim requires
after a tie resets the detector to "no active streak". -/
theorem tie_resets_streak_counterexample :
    (dbOwnerAllStreaks "X" c2_games).map (fun s => (s.type, s.length)) =
      [(GameResult.W, 2)] := by
  decide

/-- C2 (amended): a tie is skipped entirely — the step function leaves
the detector state unchanged on a `T` game, neither extending nor
terminating the active streak — so a run interrupted by a tie is
reported as a single streak spanning the tie ([W, T, W] yields one win
streak of length 2), and no streak of type `T` is ever reported (every
reported streak has type `W` or `L`). -/
theorem ties_skipped_not_reset :
    (∀ (owner : String) (games : List OwnerGame) (st : DetState) (i : Nat)
      (g : OwnerGame), g.result = GameResult.T →
      dbStep owner games st (i, g) = st) ∧
    (∀ (owner : String) (raw_games : List OwnerGame),
      ∀ s ∈ dbOwnerAllStreaks owner raw_games,
        s.type = GameResult.W ∨ s.type = GameResult.L) ∧
    ((dbOwnerAllStreaks "X" c2_games).map (fun s => (s.type, s.length)) =
      [(GameResult.W, 2)]) := by
  refine ⟨?_, ?_, ?_⟩
  · intro owner games st i g hg
    unfold dbStep
    dsimp only
    rw [if_neg (show ¬ (g.result = GameResult.W ∨ g.result = GameResult.L) by
      rw [hg]; simp)]
  · intro owner raw s hs
    rcases List.mem_append.mp hs with h | h
    · exact (dbOwnerStreaks_winloss_mem owner raw none s (Or.inl h)).2.1
    · exact (dbOwnerStreaks_winloss_mem owner raw none s (Or.inr h)).2.1
  · decide

/-- Witness for C2 (amended) at concrete inputs. -/
theorem ties_skipped_not_reset_witness :
    dbStep "X" c2_games c2_state (1, c2_tie_game) = c2_state ∧
    (((dbOwnerAllStreaks "X" c2_games).head (by decide)).type = GameResult.W ∨
     ((dbOwnerAllStreaks "X" c2_games).head (by decide)).type = GameResult.L) :=
  ⟨ties_skipped_not_reset.1 "X" c2_games c2_state 1 c2_tie_game rfl,
   ties_skipped_not_reset.2.1 "X" c2_games _ (List.head_mem _)⟩

/-- Witness for C6 at a concrete input. -/
theorem current_streaks_sound_witness :
    (pyNoYear none = true ∧
     (((get_streak_records_core c6_og none ["Ann"]).current_streaks.head
       (by decide)).is_current = true) ∧
     3 ≤ ((get_streak_records_core c6_og none ["Ann"]).current_streaks.head
       (by decide)).length ∧
     ((get_streak_records_core c6_og none ["Ann"]).current_streaks.head
       (by decide)).owner ∈ ["Ann"] ∧
     (∃ games,
       (((get_streak_records_core c6_og none ["Ann"]).current_streaks.head
         (by decide)).owner, games) ∈ c6_og ∧
       dbFinalStreak ((get_streak_records_core c6_og none ["Ann"]).current_streaks.head
         (by decide)).owner games =
         some ((get_streak_records_core c6_og none ["Ann"]).current_streaks.head
           (by decide)))) ∧
    (∃ games,
      (((get_streak_records_core c6_og none ["Ann"]).longest_win_streaks.head
        (by decide)).owner, games) ∈ c6_og ∧
      dbFinalStreak ((get_streak_records_core c6_og none ["Ann"]).longest_win_streaks.head
        (by decide)).owner games =
        some ((get_streak_records_core c6_og none ["Ann"]).longest_win_streaks.head
          (by decide))) :=
  ⟨(current_streaks_sound c6_og none ["Ann"]).1 _ (List.head_mem _),
   (current_streaks_sound c6_og none ["Ann"]).2 _ (Or.inl (List.head_mem _))
     (by decide)⟩
